import Mathlib

/-!
Verification of the resumable ingestion engine
(`packages/ingestion/src`): record normalization, the durable batch
writer with idempotent merge, cursor checkpointing, the paginated fetch
client's retry/rate-limit/cursor-recovery policy, and the orchestration
loop.  Each definition is a shallow embedding of the corresponding
TypeScript function; instants are epoch milliseconds as integers,
database tables are lists of rows, and the asynchronous loops are
functions over finite scripts of externally supplied outcomes.
-/

/-- A timestamp value as it arrives from the source: JavaScript
`string | number`.  Numbers are modelled as integers (the events carry
integral epoch values). -/
inductive TsInput where
  | num (n : Int)
  | str (s : String)
  deriving DecidableEq, Repr

/-- Civil date to days since 1970-01-01 (proleptic Gregorian), the
standard days-from-civil computation; used to give meaning to ISO-8601
date strings.  `m` is 1..12, `d` is 1-based. -/
def daysFromCivil (y : Int) (m : Nat) (d : Nat) : Int :=
  let y' : Int := if m ≤ 2 then y - 1 else y
  let era : Int := (if 0 ≤ y' then y' else y' - 399) / 400
  let yoe : Int := y' - era * 400
  let mp : Int := (((m : Int) + 9) % 12)
  let doy : Int := (153 * mp + 2) / 5 + (d : Int) - 1
  let doe : Int := yoe * 365 + yoe / 4 - yoe / 100 + doy
  era * 146097 + doe - 719468

/-- Numeric value of a decimal digit character, if it is one. -/
def digitVal (c : Char) : Option Nat :=
  if c.isDigit then some (c.toNat - 48) else none

/-- Decimal number from a list of digit characters. -/
def digitsVal (cs : List Char) : Option Nat :=
  cs.foldl
    (fun acc c =>
      match acc, digitVal c with
      | some n, some d => some (n * 10 + d)
      | _, _ => none)
    (some 0)

/-- `Date.parse` restricted to the ISO-8601 UTC shape
`YYYY-MM-DDThh:mm:ss.mmmZ` used by this repository's source records and
tests; returns epoch milliseconds. -/
def parseISO (s : String) : Option Int :=
  match s.toList with
  | [y1, y2, y3, y4, '-', mo1, mo2, '-', d1, d2, 'T',
     h1, h2, ':', mi1, mi2, ':', s1, s2, '.', f1, f2, f3, 'Z'] =>
    match digitsVal [y1, y2, y3, y4], digitsVal [mo1, mo2], digitsVal [d1, d2],
          digitsVal [h1, h2], digitsVal [mi1, mi2], digitsVal [s1, s2],
          digitsVal [f1, f2, f3] with
    | some y, some mo, some d, some h, some mi, some sec, some ms =>
      if 1 ≤ mo ∧ mo ≤ 12 ∧ 1 ≤ d ∧ d ≤ 31 ∧ h ≤ 23 ∧ mi ≤ 59 ∧ sec ≤ 59 then
        some ((daysFromCivil (y : Int) mo d * 86400000)
          + (h : Int) * 3600000 + (mi : Int) * 60000 + (sec : Int) * 1000 + (ms : Int))
      else none
    | _, _, _, _, _, _, _ => none
  | _ => none

/-- Largest epoch-millisecond magnitude representable by a JavaScript
`Date` (±8.64e15); beyond it `new Date(n)` is an invalid date. -/
def jsMaxDateMs : Int := 8640000000000000

/-- `normalizeTimestamp` from `src/ingestion/transformer.ts`: a number
is passed to `new Date(input)` unchanged, i.e. it is always read as
epoch milliseconds; a string goes through `Date.parse`; an invalid
result throws. -/
def normalizeTimestamp : TsInput → Except String Int
  | .num n =>
    if n.natAbs ≤ 8640000000000000 then .ok n
    else .error "Invalid timestamp"
  | .str s =>
    match parseISO s with
    | some t => .ok t
    | none => .error "Invalid timestamp string"

/-- A raw source record (`RawEvent` in `transformer.ts`): the three
fields the transformer looks at, each optional as in the TypeScript
interface.  The open-ended remainder of the field bag never influences
the transformation, so it is not represented. -/
structure RawEvent where
  id : Option String
  type : Option String
  timestamp : Option TsInput
  deriving DecidableEq, Repr

/-- A canonical destination row (`TransformedRow` in `transformer.ts`);
`data` carries the full original record. -/
structure TransformedRow where
  id : String
  event_type : Option String
  timestamp : Option Int
  data : RawEvent
  deriving DecidableEq, Repr

/-- JavaScript truthiness of an optional string: `undefined` and the
empty string are falsy. -/
def jsTruthyStr : Option String → Bool
  | none => false
  | some s => s ≠ ""

/-- JavaScript truthiness of an optional timestamp value: `undefined`,
the number `0` and the empty string are falsy. -/
def jsTruthyTs : Option TsInput → Bool
  | none => false
  | some (.num n) => n ≠ 0
  | some (.str s) => s ≠ ""

/-- `transformEvent` from `transformer.ts`: throws when `raw.id` is
falsy; parses `raw.timestamp` only when that field is truthy (otherwise
the row's timestamp is null); maps a falsy `raw.type` to null. -/
def transformEvent (raw : RawEvent) : Except String TransformedRow :=
  if jsTruthyStr raw.id then
    match
      (if jsTruthyTs raw.timestamp then
        match raw.timestamp with
        | some t => (normalizeTimestamp t).map some
        | none => .ok none
      else .ok none : Except String (Option Int)) with
    | .error e => .error e
    | .ok ts =>
      .ok { id := raw.id.getD ""
            event_type := if jsTruthyStr raw.type then raw.type else none
            timestamp := ts
            data := raw }
  else .error "Missing id field in event"

/-- `transformEvents`: `rawEvents.map(transformEvent)`, where the first
thrown error aborts the whole batch. -/
def transformEvents (rawEvents : List RawEvent) : Except String (List TransformedRow) :=
  rawEvents.mapM transformEvent

/-- The two destination-side tables touched by `DBWriter.flush`
(`writer.ts`): the `staging_events` holding table and the
`ingested_events` destination table (unique on `id`). -/
structure DBState where
  staging : List TransformedRow
  dest : List TransformedRow
  deriving DecidableEq, Repr

/-- The merge step of `DBWriter.flush`: `INSERT INTO ingested_events
SELECT ... FROM staging_events ON CONFLICT (id) DO NOTHING`.  Rows are
taken in order; a row whose id is already present in the destination
(including one inserted earlier in the same command) is skipped. -/
def mergeRows (dest : List TransformedRow) : List TransformedRow → List TransformedRow
  | [] => dest
  | r :: rs =>
    if r.id ∈ dest.map TransformedRow.id then mergeRows dest rs
    else mergeRows (dest ++ [r]) rs

/-- `DBWriter.flush`: a no-op on an empty buffer; otherwise the buffer
is cleared immediately (before the transaction), the batch is
bulk-inserted into staging, merged into the destination, staging is
truncated and the transaction commits — or, when the transaction fails
(`txOk = false`), everything database-side rolls back while the buffer
stays cleared.  Returns the new buffer and the new database state. -/
def flush (buffer : List TransformedRow) (db : DBState) (txOk : Bool) :
    List TransformedRow × DBState :=
  if buffer = [] then (buffer, db)
  else
    let batch := buffer
    if txOk then
      let staged := db.staging ++ batch
      let merged := mergeRows db.dest staged
      ([], { staging := [], dest := merged })
    else ([], db)

/-- `DBWriter.add`: pushes rows one at a time onto the buffer and
triggers a (successful) `flush` whenever the buffer reaches
`batchSize`. -/
def writerAdd (batchSize : Nat) (buffer : List TransformedRow) (db : DBState)
    (rows : List TransformedRow) : List TransformedRow × DBState :=
  rows.foldl
    (fun acc r =>
      let buf := acc.1 ++ [r]
      if batchSize ≤ buf.length then flush buf acc.2 true
      else (buf, acc.2))
    (buffer, db)

/-- One persisted row of the `cursor_state` table:
`(cursor_value, events_ingested)`. -/
abbrev Checkpoint := String × Nat

/-- `saveCursor` from `cursor.ts`: returns without touching the
database when the in-memory cursor is null; otherwise appends
(insert-only) a row to `cursor_state`. -/
def saveCursor (table : List Checkpoint) (cursor : Option String)
    (eventsIngested : Nat) : List Checkpoint :=
  match cursor with
  | none => table
  | some c => table ++ [(c, eventsIngested)]

/-- The value `fetchPage` resolves with (`FetchPageResult` in
`fetcher.ts`). -/
structure FetchPageResult where
  data : List RawEvent
  hasMore : Bool
  nextCursor : String
  deriving DecidableEq, Repr

/-- Outcome of one HTTP attempt inside `fetchPage`: a 2xx page, an
axios error carrying a response (its status, optional body error code
and optional parsed `retry-after` header in seconds), or a network
failure with no response (including timeouts). -/
inductive HttpOutcome where
  | success (page : FetchPageResult)
  | httpError (status : Nat) (code : Option String) (retryAfter : Option Nat)
  | networkError
  deriving DecidableEq, Repr

/-- An error thrown out of `fetchPage` to its caller. -/
inductive FetchErr where
  | streamTokenExpired
  | authError (status : Nat)
  | raw (o : HttpOutcome)
  deriving DecidableEq, Repr

instance {ε α : Type} [DecidableEq ε] [DecidableEq α] : DecidableEq (Except ε α) := fun a b =>
  match a, b with
  | .ok x, .ok y =>
    if h : x = y then .isTrue (by rw [h]) else .isFalse (by simp [h])
  | .error x, .error y =>
    if h : x = y then .isTrue (by rw [h]) else .isFalse (by simp [h])
  | .ok _, .error _ => .isFalse (by simp)
  | .error _, .ok _ => .isFalse (by simp)

/-- Observable behaviour of one `fetchPage` call: the final result
(`none` when the supplied outcome script was exhausted while the loop
would still retry), the effective cursor parameter of each HTTP request
in order, and every sleep in milliseconds in order. -/
structure FetchRun where
  result : Option (Except FetchErr FetchPageResult)
  requests : List (Option String)
  delays : List Nat
  deriving DecidableEq, Repr

/-- The retry loop of `Fetcher.fetchPage` (`fetcher.ts`), driven by a
finite script of HTTP outcomes.  Classification order matches the
source: 401/403 throw (a distinct signal on the stream endpoint); a 400
whose body code is `CURSOR_EXPIRED` clears a truthy cursor and retries
immediately; a 429 sleeps `(retryAfter ?? 60) + 1` seconds and retries
without bound; network errors and 5xx retry at most `maxRetries = 3`
times with delays `2^attempt * 500` ms; anything else is rethrown. -/
def fetchLoop (isStream : Bool) (cursor : Option String) (attempt : Nat) :
    List HttpOutcome → FetchRun
  | [] => { result := none, requests := [], delays := [] }
  | o :: rest =>
    let sent := if jsTruthyStr cursor then cursor else none
    match o with
    | .success page => { result := some (.ok page), requests := [sent], delays := [] }
    | .httpError status code retryAfter =>
      if status = 401 ∨ status = 403 then
        if isStream then
          { result := some (.error .streamTokenExpired), requests := [sent], delays := [] }
        else
          { result := some (.error (.authError status)), requests := [sent], delays := [] }
      else if status = 400 ∧ code = some "CURSOR_EXPIRED" ∧ jsTruthyStr cursor then
        let r := fetchLoop isStream none attempt rest
        { r with requests := sent :: r.requests }
      else if status = 429 then
        let wait := (retryAfter.getD 60 + 1) * 1000
        let r := fetchLoop isStream cursor attempt rest
        { r with requests := sent :: r.requests, delays := wait :: r.delays }
      else if 500 ≤ status ∧ attempt < 3 then
        let r := fetchLoop isStream cursor (attempt + 1) rest
        { r with requests := sent :: r.requests
                 delays := (2 ^ (attempt + 1) * 500) :: r.delays }
      else
        { result := some (.error (.raw o)), requests := [sent], delays := [] }
    | .networkError =>
      if attempt < 3 then
        let r := fetchLoop isStream cursor (attempt + 1) rest
        { r with requests := sent :: r.requests
                 delays := (2 ^ (attempt + 1) * 500) :: r.delays }
      else
        { result := some (.error (.raw .networkError)), requests := [sent], delays := [] }

/-- One call of `Fetcher.fetchPage`: the loop starts with `attempt = 0`
on the supplied cursor. -/
def fetchPage (isStream : Bool) (cursor : Option String)
    (script : List HttpOutcome) : FetchRun :=
  fetchLoop isStream cursor 0 script

/-- True for outcomes the retry loop classifies as transient (network
failure, or a server-side 5xx response). -/
def isTransientOutcome : HttpOutcome → Bool
  | .networkError => true
  | .httpError status _ _ => 500 ≤ status
  | .success _ => false

/-- Outcome of one `fetcher.fetchPage(...)` call as observed by the
pipeline loop: a resolved page, or a rejection. -/
inductive FetchResult where
  | page (data : List RawEvent) (hasMore : Bool) (nextCursor : String)
  | fetchError (msg : String)
  deriving DecidableEq, Repr

/-- Observable state of one `Pipeline.run` execution: the in-memory
cursor state, the writer buffer, the destination database, the
persisted `cursor_state` table, a log recording at each checkpoint
write the pair (events the checkpoint covers, rows committed to the
destination at that moment), the number of fetches performed, and
whether the run re-threw an error. -/
structure PipeState where
  cursor : Option String
  eventsIngested : Nat
  buffer : List TransformedRow
  db : DBState
  checkpoints : List Checkpoint
  persistLog : List (Nat × Nat)
  fetchesDone : Nat
  errored : Bool
  deriving DecidableEq, Repr

/-- Fresh run state: `CursorState.create()` (null cursor, 0 events),
empty buffer, empty tables. -/
def PipeState.initial : PipeState :=
  { cursor := none, eventsIngested := 0, buffer := [], db := ⟨[], []⟩
    checkpoints := [], persistLog := [], fetchesDone := 0, errored := false }

/-- A `saveCursor(pool, state)` call from the pipeline: appends to
`cursor_state` unless the cursor is null, and records the ghost
persist-log entry whenever a row is actually written. -/
def doSave (st : PipeState) : PipeState :=
  { st with
    checkpoints := saveCursor st.checkpoints st.cursor st.eventsIngested
    persistLog :=
      match st.cursor with
      | none => st.persistLog
      | some _ => st.persistLog ++ [(st.eventsIngested, st.db.dest.length)] }

/-- The pipeline's exit sequence (`writer.close()` then `saveCursor`),
shared by the catch handler and the clean epilogue. -/
def drain (st : PipeState) (err : Bool) : PipeState :=
  let fl := flush st.buffer st.db true
  doSave { st with buffer := fl.1, db := fl.2, errored := err }

/-- The standard-mode loop of `Pipeline.run` (`pipeline.ts`), driven by
a finite script of fetch outcomes: while `hasMore`, fetch a page; on a
non-empty page transform it, hand the rows to `writer.add`, advance the
in-memory cursor state, and persist the checkpoint when
`eventsIngested % 50000 < limit`; any thrown error (a failed fetch, a
failed transform, or an exhausted script) runs the catch handler's
close-and-save before re-throwing. -/
def runLoop (batchSize limit : Nat) : List FetchResult → PipeState → PipeState
  | [], st => drain st true
  | f :: rest, st =>
    let st1 := { st with fetchesDone := st.fetchesDone + 1 }
    match f with
    | .fetchError _ => drain st1 true
    | .page data hasMore next =>
      if data.length > 0 then
        match transformEvents data with
        | .error _ => drain st1 true
        | .ok rows =>
          let wa := writerAdd batchSize st1.buffer st1.db rows
          let st2 := { st1 with buffer := wa.1, db := wa.2
                                cursor := some next
                                eventsIngested := st1.eventsIngested + rows.length }
          let st3 := if st2.eventsIngested % 50000 < limit then doSave st2 else st2
          if hasMore then runLoop batchSize limit rest st3 else drain st3 false
      else
        if hasMore then runLoop batchSize limit rest st1 else drain st1 false

/-- `Pipeline.run` on an empty checkpoint store: the loop from the
fresh state. -/
def runPipeline (batchSize limit : Nat) (fetches : List FetchResult) : PipeState :=
  runLoop batchSize limit fetches PipeState.initial

/-- A fetch outcome carrying no data rows: an empty page or a
rejection.  A run seeing only such outcomes never advances the
in-memory cursor. -/
def emptyOutcome : FetchResult → Bool
  | .page data _ _ => data.isEmpty
  | .fetchError _ => true

/-- A sample canonical row, as produced by `transformEvent` on a
well-formed click event. -/
def sampleRow : TransformedRow :=
  { id := "evt-1", event_type := some "click", timestamp := some 1000
    data := { id := some "evt-1", type := some "click", timestamp := some (.num 1000) } }

/-- A sample fetched page of three raw records with distinct ids,
mirroring the shapes exercised by the repository's unit tests. -/
def samplePage : List RawEvent :=
  [ { id := some "1", type := some "click", timestamp := some (.num 1000) }
  , { id := some "2", type := some "page_view", timestamp := none }
  , { id := some "3", type := none, timestamp := some (.num 2000) } ]

/-- An id is in the merged destination exactly when it was already
there or occurs in the merged batch. -/
theorem mem_map_id_mergeRows (l d : List TransformedRow) (x : String) :
    x ∈ (mergeRows d l).map TransformedRow.id ↔
      x ∈ d.map TransformedRow.id ∨ x ∈ l.map TransformedRow.id := by
  induction l generalizing d with
  | nil => simp [mergeRows]
  | cons r rs ih =>
    simp only [mergeRows]
    split
    · rename_i h
      rw [ih]
      simp only [List.map_cons, List.mem_cons]
      constructor
      · tauto
      · rintro (hx | hx | hx)
        · tauto
        · subst hx; tauto
        · tauto
    · rw [ih]
      simp only [List.map_append, List.map_cons, List.map_nil, List.mem_append,
        List.mem_cons, List.mem_singleton, List.not_mem_nil]
      tauto

/-- Merging preserves distinctness of destination ids: the conflict
check skips every row whose id is already present. -/
theorem nodup_map_id_mergeRows (l d : List TransformedRow)
    (hd : (d.map TransformedRow.id).Nodup) :
    ((mergeRows d l).map TransformedRow.id).Nodup := by
  induction l generalizing d with
  | nil => simpa [mergeRows]
  | cons r rs ih =>
    simp only [mergeRows]
    split
    · exact ih d hd
    · rename_i h
      apply ih
      simp only [List.map_append, List.map_cons, List.map_nil]
      rw [List.nodup_append]
      refine ⟨hd, List.nodup_singleton _, ?_⟩
      intro a ha hb
      simp only [List.mem_cons, List.not_mem_nil, or_false] at hb
      exact h (hb ▸ ha)

/-- Re-merging rows whose ids are all already present leaves the
destination untouched. -/
theorem mergeRows_noop (l d : List TransformedRow)
    (h : ∀ r ∈ l, r.id ∈ d.map TransformedRow.id) :
    mergeRows d l = d := by
  induction l with
  | nil => rfl
  | cons r rs ih =>
    simp only [mergeRows]
    rw [if_pos (h r (by simp))]
    exact ih (fun x hx => h x (by simp [hx]))

/-- One transient failure below the retry cap: the loop sleeps
`2^(attempt+1) * 500` ms and retries with the attempt counter bumped. -/
theorem fetchLoop_transient_step (isStream : Bool) (cursor : Option String) (attempt : Nat)
    (o : HttpOutcome) (rest : List HttpOutcome)
    (ho : isTransientOutcome o = true) (ha : attempt < 3) :
    fetchLoop isStream cursor attempt (o :: rest) =
      { fetchLoop isStream cursor (attempt + 1) rest with
        requests := (if jsTruthyStr cursor then cursor else none)
          :: (fetchLoop isStream cursor (attempt + 1) rest).requests
        delays := (2 ^ (attempt + 1) * 500)
          :: (fetchLoop isStream cursor (attempt + 1) rest).delays } := by
  cases o with
  | success p => simp [isTransientOutcome] at ho
  | networkError => simp [fetchLoop, ha]
  | httpError s c ra =>
    have h500 : 500 ≤ s := by simpa [isTransientOutcome] using ho
    have h1 : ¬(s = 401 ∨ s = 403) := by omega
    have h2 : ¬(s = 400 ∧ c = some "CURSOR_EXPIRED" ∧ jsTruthyStr cursor = true) := by
      rintro ⟨h, -, -⟩; omega
    have h3 : s ≠ 429 := by omega
    simp only [fetchLoop, if_neg h1, if_neg h2, if_neg h3]
    rw [if_pos (show 500 ≤ s ∧ attempt < 3 from ⟨h500, ha⟩)]

/-- A transient failure at the retry cap: the loop stops retrying and
rethrows the original error. -/
theorem fetchLoop_transient_exhausted (isStream : Bool) (cursor : Option String)
    (o : HttpOutcome) (rest : List HttpOutcome) (ho : isTransientOutcome o = true) :
    fetchLoop isStream cursor 3 (o :: rest) =
      { result := some (.error (.raw o))
        requests := [if jsTruthyStr cursor then cursor else none]
        delays := [] } := by
  cases o with
  | success p => simp [isTransientOutcome] at ho
  | networkError => simp [fetchLoop]
  | httpError s c ra =>
    have h500 : 500 ≤ s := by simpa [isTransientOutcome] using ho
    have h1 : ¬(s = 401 ∨ s = 403) := by omega
    have h2 : ¬(s = 400 ∧ c = some "CURSOR_EXPIRED" ∧ jsTruthyStr cursor = true) := by
      rintro ⟨h, -, -⟩; omega
    have h3 : s ≠ 429 := by omega
    have h4 : ¬(500 ≤ s ∧ 3 < 3) := by omega
    simp only [fetchLoop, if_neg h1, if_neg h2, if_neg h3, if_neg h4]

/-- Any run of consecutive 429 responses is absorbed: each one only
adds a request and a `(hint + 1)`-second sleep, leaving the cursor, the
attempt counter and the eventual result untouched. -/
theorem fetchLoop_429_absorbed (isStream : Bool) (cursor : Option String) (attempt : Nat)
    (k hint : Nat) (script : List HttpOutcome) :
    fetchLoop isStream cursor attempt
        (List.replicate k (.httpError 429 none (some hint)) ++ script) =
      { fetchLoop isStream cursor attempt script with
        requests := List.replicate k (if jsTruthyStr cursor then cursor else none)
          ++ (fetchLoop isStream cursor attempt script).requests
        delays := List.replicate k ((hint + 1) * 1000)
          ++ (fetchLoop isStream cursor attempt script).delays } := by
  induction k with
  | zero => simp
  | succ n ih =>
    have h1 : ¬((429 : Nat) = 401 ∨ (429 : Nat) = 403) := by omega
    have h2 : ¬((429 : Nat) = 400 ∧ (none : Option String) = some "CURSOR_EXPIRED"
        ∧ jsTruthyStr cursor = true) := by rintro ⟨h, -, -⟩; omega
    simp only [List.replicate_succ, List.cons_append, fetchLoop, if_neg h1, if_neg h2,
      Option.getD_some, List.append_eq, eq_self_iff_true, if_true]
    simp only [ih]

/-- A pipeline run whose every fetched page carries no rows never
writes a checkpoint: the in-memory cursor stays null, so every
`saveCursor` call — in the loop, in the catch handler, and at the final
drain — is a no-op. -/
theorem runLoop_empty_pages (batchSize limit : Nat) (fetches : List FetchResult)
    (st : PipeState) (hall : fetches.all emptyOutcome = true)
    (hc : st.cursor = none) (hck : st.checkpoints = []) :
    (runLoop batchSize limit fetches st).checkpoints = [] := by
  induction fetches generalizing st with
  | nil => simp [runLoop, drain, doSave, hc, saveCursor, hck]
  | cons f rest ih =>
    simp only [List.all_cons, Bool.and_eq_true] at hall
    obtain ⟨hf, hrest⟩ := hall
    cases f with
    | fetchError m => simp [runLoop, drain, doSave, hc, saveCursor, hck]
    | page data hasMore next =>
      have hdata : data = [] := by
        cases data with
        | nil => rfl
        | cons a l => simp [emptyOutcome] at hf
      subst hdata
      cases hasMore with
      | false => simp [runLoop, drain, doSave, hc, saveCursor, hck]
      | true =>
        simp only [runLoop, List.length_nil, gt_iff_lt, Nat.lt_irrefl, if_false]
        exact ih _ hrest hc hck

/-- C1: the ordering guarantee fails on the code.  With the configured
batch size 1000 and standard-mode page limit 5000, a first page of 3
rows makes the loop persist the checkpoint `("c1", 3)` while all 3 rows
are still in the writer's in-memory buffer and none is committed: the
run's persist log records `(3, 0)` — a checkpoint covering 3 ingested
events written when the destination held 0 rows — before the final
drain commits them. -/
theorem checkpoint_ahead_of_commit :
    (runPipeline 1000 5000 [.page samplePage true "c1", .page [] false "c2"]).persistLog
      = [(3, 0), (3, 3)]
    ∧ (runPipeline 1000 5000 [.page samplePage true "c1", .page [] false "c2"]).checkpoints
      = [("c1", 3), ("c1", 3)] := by
  decide

/-- C2 counterexample: after a failed flush of the one-row batch
`[sampleRow]`, the writer's buffer does **not** still contain the
batch — it was cleared before the transaction began. -/
theorem flush_failure_cex :
    ¬ ((flush [sampleRow] ⟨[], []⟩ false).1 = [sampleRow]) := by decide

/-- C2 amended: a failed flush is still all-or-nothing on the database
(staging and destination are exactly as before the call), but the
in-memory buffer is cleared before the transaction starts and is not
restored on failure, so a retry of `flush()` finds an empty buffer and
re-attempts nothing. -/
theorem flush_failure_amended (buffer : List TransformedRow) (db : DBState) :
    (flush buffer db false).2 = db ∧ (flush buffer db false).1 = [] := by
  constructor
  · unfold flush; split
    · rfl
    · simp
  · unfold flush; split
    · assumption
    · simp

/-- C3 counterexample: `normalizeTimestamp` applies no
seconds/milliseconds threshold — both numeric inputs are read as epoch
milliseconds, so `1769541612369` and `1769541612` normalize to instants
more than one second apart (about 56 years apart). -/
theorem numeric_threshold_cex :
    normalizeTimestamp (.num 1769541612369) = .ok 1769541612369
    ∧ normalizeTimestamp (.num 1769541612) = .ok 1769541612
    ∧ ¬ (((1769541612369 : Int) - 1769541612).natAbs ≤ 1000) := by decide

/-- C3 amended: every in-range numeric timestamp is interpreted as
epoch milliseconds regardless of magnitude (so `1769541612369` yields
that millisecond instant, while `1769541612` yields an instant in
January 1970), and the string `"2026-01-27T19:19:13.629Z"` normalizes
exactly to its ISO instant, epoch millisecond `1769541553629`. -/
theorem normalizeTimestamp_always_ms (n : Int) (h : n.natAbs ≤ 8640000000000000) :
    normalizeTimestamp (.num n) = .ok n
    ∧ normalizeTimestamp (.str "2026-01-27T19:19:13.629Z") = .ok 1769541553629 := by
  refine ⟨?_, by decide⟩
  simp [normalizeTimestamp, h]

theorem normalizeTimestamp_always_ms_witness :
    (1769541612 : Int).natAbs ≤ 8640000000000000
    ∧ (normalizeTimestamp (.num 1769541612) = .ok 1769541612
      ∧ normalizeTimestamp (.str "2026-01-27T19:19:13.629Z") = .ok 1769541553629) :=
  ⟨by decide, normalizeTimestamp_always_ms 1769541612 (by decide)⟩

/-- C4: flushing the same batch `S` twice into an empty destination
leaves exactly one destination row per distinct id of `S`: the
resulting ids are duplicate-free, an id appears in the destination
exactly when it occurs in `S`, and the second merge changes nothing
(a no-op, not an error, not a duplicate). -/
theorem flush_twice_one_row_per_id (S : List TransformedRow) :
    let db1 := (flush S ⟨[], []⟩ true).2
    let db2 := (flush S db1 true).2
    (((db2.dest.map TransformedRow.id).Nodup
      ∧ ∀ x, x ∈ db2.dest.map TransformedRow.id ↔ x ∈ S.map TransformedRow.id)
      ∧ db2.dest = db1.dest) := by
  by_cases hS : S = []
  · subst hS
    simp [flush]
  · have hmem : ∀ x, x ∈ (mergeRows [] S).map TransformedRow.id
        ↔ x ∈ S.map TransformedRow.id := by
      intro x; rw [mem_map_id_mergeRows]; simp
    have hnoop : mergeRows (mergeRows [] S) S = mergeRows [] S := by
      apply mergeRows_noop
      intro r hr
      exact (hmem r.id).2 (List.mem_map_of_mem _ hr)
    simp only [flush, if_neg hS, if_pos rfl, List.nil_append]
    simp only [if_true, List.nil_append]
    refine ⟨⟨?_, ?_⟩, ?_⟩
    · exact nodup_map_id_mergeRows _ _ (nodup_map_id_mergeRows _ _ List.nodup_nil)
    · intro x; rw [hnoop]; exact hmem x
    · simp [hnoop]

/-- C5 counterexample: in the one-page scenario (empty checkpoint
store, one page of 3 records, `hasMore = false`) the checkpoint is not
persisted exactly once — `saveCursor` writes a row both inside the loop
and at the final drain. -/
theorem one_page_scenario_cex :
    ¬ ((runPipeline 5000 5000 [.page samplePage false "cur-final"]).checkpoints.length
      = 1) := by
  decide

/-- C5 amended: in the one-page scenario the engine performs exactly
one fetch, commits the 3 rows (leaving an empty buffer), persists the
checkpoint twice — once after the page and once at shutdown, both times
with the final cursor and event count 3 — and stops cleanly. -/
theorem one_page_scenario_amended :
    (runPipeline 5000 5000 [.page samplePage false "cur-final"]).fetchesDone = 1
    ∧ ((runPipeline 5000 5000 [.page samplePage false "cur-final"]).db.dest.map
        TransformedRow.id) = ["1", "2", "3"]
    ∧ (runPipeline 5000 5000 [.page samplePage false "cur-final"]).buffer = []
    ∧ (runPipeline 5000 5000 [.page samplePage false "cur-final"]).checkpoints
        = [("cur-final", 3), ("cur-final", 3)]
    ∧ (runPipeline 5000 5000 [.page samplePage false "cur-final"]).errored = false := by
  decide

/-- C6: when the first four HTTP attempts all fail transiently (network
failure or 5xx), `fetchPage` performs exactly 4 attempts with backoff
sleeps of 1000 ms, 2000 ms and 4000 ms between them, and then surfaces
the transient failure to the caller instead of retrying further. -/
theorem fetchPage_retry_exhaustion (isStream : Bool) (cursor : Option String)
    (e1 e2 e3 e4 : HttpOutcome) (rest : List HttpOutcome)
    (h1 : isTransientOutcome e1 = true) (h2 : isTransientOutcome e2 = true)
    (h3 : isTransientOutcome e3 = true) (h4 : isTransientOutcome e4 = true) :
    (fetchPage isStream cursor (e1 :: e2 :: e3 :: e4 :: rest)).requests.length = 4
    ∧ (fetchPage isStream cursor (e1 :: e2 :: e3 :: e4 :: rest)).delays = [1000, 2000, 4000]
    ∧ (fetchPage isStream cursor (e1 :: e2 :: e3 :: e4 :: rest)).result
        = some (.error (.raw e4)) := by
  unfold fetchPage
  rw [fetchLoop_transient_step isStream cursor 0 e1 _ h1 (by omega),
    fetchLoop_transient_step isStream cursor 1 e2 _ h2 (by omega),
    fetchLoop_transient_step isStream cursor 2 e3 _ h3 (by omega),
    fetchLoop_transient_exhausted isStream cursor e4 _ h4]
  simp

theorem fetchPage_retry_exhaustion_witness :
    (isTransientOutcome .networkError = true
      ∧ isTransientOutcome (.httpError 503 none none) = true)
    ∧ ((fetchPage false (some "c")
          [.networkError, .httpError 503 none none, .networkError, .networkError]).requests.length
        = 4
      ∧ (fetchPage false (some "c")
          [.networkError, .httpError 503 none none, .networkError, .networkError]).delays
        = [1000, 2000, 4000]
      ∧ (fetchPage false (some "c")
          [.networkError, .httpError 503 none none, .networkError, .networkError]).result
        = some (.error (.raw .networkError))) :=
  ⟨⟨by decide, by decide⟩,
    fetchPage_retry_exhaustion false (some "c") .networkError (.httpError 503 none none)
      .networkError .networkError [] (by decide) (by decide) (by decide) (by decide)⟩

/-- C7: any number `k` of consecutive rate-limited responses with wait
hint `hint` seconds is absorbed inside `fetchPage`: the call sleeps
`(hint + 1) * 1000` ms for each of them, then returns the following
successful page, and a script of rate limits alone never produces an
error (the loop is still retrying when the script runs out). -/
theorem fetchPage_rate_limit_absorbed (isStream : Bool) (cursor : Option String)
    (k hint : Nat) (page : FetchPageResult) :
    (fetchPage isStream cursor
        (List.replicate k (.httpError 429 none (some hint)) ++ [.success page])).result
      = some (.ok page)
    ∧ (fetchPage isStream cursor
        (List.replicate k (.httpError 429 none (some hint)) ++ [.success page])).delays
      = List.replicate k ((hint + 1) * 1000)
    ∧ (fetchPage isStream cursor
        (List.replicate k (.httpError 429 none (some hint)))).result = none := by
  unfold fetchPage
  rw [fetchLoop_429_absorbed]
  have hexh : fetchLoop isStream cursor 0
      (List.replicate k (.httpError 429 none (some hint))) =
      { fetchLoop isStream cursor 0 [] with
        requests := List.replicate k (if jsTruthyStr cursor then cursor else none)
          ++ (fetchLoop isStream cursor 0 ([] : List HttpOutcome)).requests
        delays := List.replicate k ((hint + 1) * 1000)
          ++ (fetchLoop isStream cursor 0 ([] : List HttpOutcome)).delays } := by
    have := fetchLoop_429_absorbed isStream cursor 0 k hint []
    simpa using this
  rw [hexh]
  simp [fetchLoop]

/-- C8: a 400 response with body code `CURSOR_EXPIRED` arriving while a
truthy cursor was supplied makes `fetchPage` clear the cursor and retry
the same call immediately: the caller sees one successful page, two
requests were sent (the second without a cursor), and no sleep
occurred. -/
theorem fetchPage_cursor_expired_recovery (isStream : Bool) (c : String) (hc : c ≠ "")
    (body : Option Nat) (page : FetchPageResult) (rest : List HttpOutcome) :
    (fetchPage isStream (some c)
        (.httpError 400 (some "CURSOR_EXPIRED") body :: .success page :: rest)).result
      = some (.ok page)
    ∧ (fetchPage isStream (some c)
        (.httpError 400 (some "CURSOR_EXPIRED") body :: .success page :: rest)).requests
      = [some c, none]
    ∧ (fetchPage isStream (some c)
        (.httpError 400 (some "CURSOR_EXPIRED") body :: .success page :: rest)).delays
      = [] := by
  have htr : jsTruthyStr (some c) = true := by simpa [jsTruthyStr] using hc
  have h1 : ¬((400 : Nat) = 401 ∨ (400 : Nat) = 403) := by omega
  unfold fetchPage
  simp only [fetchLoop, if_neg h1, htr, if_pos (⟨rfl, rfl, rfl⟩ :
    (400 : Nat) = 400 ∧ (some "CURSOR_EXPIRED" : Option String) = some "CURSOR_EXPIRED"
      ∧ (true : Bool) = true)]
  simp [jsTruthyStr]

theorem fetchPage_cursor_expired_recovery_witness :
    ("abc" : String) ≠ ""
    ∧ ((fetchPage false (some "abc")
          [.httpError 400 (some "CURSOR_EXPIRED") none, .success ⟨[], false, "n"⟩]).result
        = some (.ok ⟨[], false, "n"⟩)
      ∧ (fetchPage false (some "abc")
          [.httpError 400 (some "CURSOR_EXPIRED") none, .success ⟨[], false, "n"⟩]).requests
        = [some "abc", none]
      ∧ (fetchPage false (some "abc")
          [.httpError 400 (some "CURSOR_EXPIRED") none, .success ⟨[], false, "n"⟩]).delays
        = []) :=
  ⟨by decide,
    fetchPage_cursor_expired_recovery false "abc" (by decide) none ⟨[], false, "n"⟩ []⟩

/-- C9: a record whose timestamp field is present but falsy — the
number 0 or the empty string — transforms successfully (given a truthy
id) into a row whose timestamp is null; the value is never parsed and
never fails validation. -/
theorem transformEvent_falsy_timestamp (raw : RawEvent)
    (hid : jsTruthyStr raw.id = true)
    (hts : raw.timestamp = some (.num 0) ∨ raw.timestamp = some (.str "")) :
    ∃ row, transformEvent raw = .ok row ∧ row.timestamp = none := by
  have hfalse : jsTruthyTs raw.timestamp = false := by
    rcases hts with h | h <;> simp [h, jsTruthyTs]
  refine ⟨{ id := raw.id.getD ""
            event_type := if jsTruthyStr raw.type then raw.type else none
            timestamp := none
            data := raw }, ?_, rfl⟩
  unfold transformEvent
  rw [if_pos hid, if_neg (by simp [hfalse])]

theorem transformEvent_falsy_timestamp_witness :
    jsTruthyStr (some "x") = true
    ∧ ∃ row, transformEvent ⟨some "x", some "click", some (.num 0)⟩ = .ok row
        ∧ row.timestamp = none :=
  ⟨by decide,
    transformEvent_falsy_timestamp ⟨some "x", some "click", some (.num 0)⟩
      (by decide) (Or.inl rfl)⟩

/-- C10: `saveCursor` on a null cursor writes nothing and leaves the
checkpoint table unchanged, and consequently any run — ending cleanly
or on an error — in which no fetched page ever carried a row (so the
cursor never advanced past its fresh null value) persists no checkpoint
at all, including at the final shutdown save. -/
theorem saveCursor_null_noop (table : List Checkpoint) (k : Nat)
    (batchSize limit : Nat) (fetches : List FetchResult)
    (h : fetches.all emptyOutcome = true) :
    saveCursor table none k = table
    ∧ (runPipeline batchSize limit fetches).checkpoints = [] :=
  ⟨rfl, runLoop_empty_pages batchSize limit fetches PipeState.initial h rfl rfl⟩

theorem saveCursor_null_noop_witness :
    ([FetchResult.fetchError "boom", FetchResult.page [] false "x"].all emptyOutcome
      = true)
    ∧ (saveCursor [("c", 5)] none 7 = [("c", 5)]
      ∧ (runPipeline 1000 5000
          [FetchResult.fetchError "boom", FetchResult.page [] false "x"]).checkpoints
        = []) :=
  ⟨by decide,
    saveCursor_null_noop [("c", 5)] 7 1000 5000
      [FetchResult.fetchError "boom", FetchResult.page [] false "x"] (by decide)⟩
